import Mathlib

/-!
Shallow embedding of `packages/mdc-dialog/foundation.js` (MDCDialogFoundation):
the behavioral controller for a modal dialog.  All adapter calls are recorded
as an explicit effect trace; the host scheduler (`setTimeout` / `clearTimeout` /
`requestAnimationFrame`) is modelled by a list of pending timers (with fresh
numeric ids, as in the browser) and a list of pending animation-frame callbacks.
-/

namespace MDCDialog

/-- Modelled from the spec: the `./constants` module (`cssClasses`) is not under
`src/`; the spec describes the markers only as distinct presentation markers
(opening, open, closing, scroll-lock, stacked, scrollable). -/
structure CssClassesT where
  OPENING : String
  OPEN : String
  CLOSING : String
  SCROLL_LOCK : String
  STACKED : String
  SCROLLABLE : String

def cssClasses : CssClassesT :=
  { OPENING := "mdc-dialog--opening"
    OPEN := "mdc-dialog--open"
    CLOSING := "mdc-dialog--closing"
    SCROLL_LOCK := "mdc-dialog-scroll-lock"
    STACKED := "mdc-dialog--stacked"
    SCROLLABLE := "mdc-dialog--scrollable" }

/-- Modelled from the spec: the `./constants` module (`strings`) is not under
`src/`; the spec describes two reserved action tokens produced internally by
the controller (a "destroyed" token and an "escape-key" token). -/
structure StringsT where
  DESTROY_ACTION : String
  ESCAPE_ACTION : String

def strings : StringsT :=
  { DESTROY_ACTION := "destroy"
    ESCAPE_ACTION := "escape" }

/-- Modelled from the spec: the `./constants` module (`numbers`) is not under
`src/`; the spec describes two externally supplied positive animation
durations in milliseconds. -/
structure NumbersT where
  DIALOG_ANIMATION_OPEN_TIME_MS : Nat
  DIALOG_ANIMATION_CLOSE_TIME_MS : Nat

def numbers : NumbersT :=
  { DIALOG_ANIMATION_OPEN_TIME_MS := 120
    DIALOG_ANIMATION_CLOSE_TIME_MS := 75 }

/-- The three handler closures created once in the constructor
(`dialogClickHandler_`, `windowResizeHandler_`, `documentKeyDownHandler_`).
Identity of a closure is identity of the constructor. -/
inductive Handler where
  | dialogClickHandler
  | windowResizeHandler
  | documentKeyDownHandler
deriving DecidableEq, Repr

/-- One synchronous adapter call, as recorded in the effect trace. -/
inductive Effect where
  | registerInteractionHandler (eventName : String) (h : Handler)
  | deregisterInteractionHandler (eventName : String) (h : Handler)
  | registerDocumentHandler (eventName : String) (h : Handler)
  | deregisterDocumentHandler (eventName : String) (h : Handler)
  | registerWindowHandler (eventName : String) (h : Handler)
  | deregisterWindowHandler (eventName : String) (h : Handler)
  | addClass (className : String)
  | removeClass (className : String)
  | addBodyClass (className : String)
  | removeBodyClass (className : String)
  | computeBoundingRect
  | trapFocus
  | releaseFocus
  | notifyOpening
  | notifyOpened
  | notifyClosing (action : Option String)
  | notifyClosed (action : Option String)
deriving DecidableEq, Repr

/-- The two timer callbacks the foundation schedules: the open-animation
completion callback and the close-animation completion callback (which closes
over the `action` argument of `close`). -/
inductive TimerCb where
  | openEnd
  | closeEnd (action : Option String)
deriving DecidableEq, Repr

/-- A pending `setTimeout` timer held by the host scheduler. -/
structure PendingTimer where
  id : Nat
  delay : Nat
  cb : TimerCb
deriving DecidableEq, Repr

/-- A pending `requestAnimationFrame` callback (only `layout` schedules one). -/
inductive FrameCb where
  | layoutFrame
deriving DecidableEq, Repr

/-- The controller state: the foundation's own fields (`isOpen_`,
`animationTimer_`) plus the host scheduler's view (pending timers, fresh
timer-id counter, pending animation frames). -/
structure Foundation where
  isOpen_ : Bool
  animationTimer_ : Nat
  nextTimerId : Nat
  timers : List PendingTimer
  frames : List FrameCb
deriving DecidableEq, Repr

/-- State after the constructor: `isOpen_ = false`, `animationTimer_ = 0`;
no timers or frames are pending.  Browser timer ids start at 1, so the initial
`animationTimer_ = 0` never matches a real timer. -/
def initial : Foundation :=
  { isOpen_ := false, animationTimer_ := 0, nextTimerId := 1, timers := [], frames := [] }

/-- Host `clearTimeout`: drops the pending timer with the given id (a no-op if
no pending timer carries it, e.g. for the initial id 0 or an already-fired
timer). -/
def clearTimeout (s : Foundation) (tid : Nat) : Foundation :=
  { s with timers := s.timers.filter (fun t => t.id ≠ tid) }

/-- Host `setTimeout`: appends a fresh pending timer and returns its id. -/
def setTimeout (s : Foundation) (cb : TimerCb) (delay : Nat) : Foundation × Nat :=
  ({ s with
      timers := s.timers ++ [{ id := s.nextTimerId, delay := delay, cb := cb }]
      nextTimerId := s.nextTimerId + 1 },
   s.nextTimerId)

/-- `handleAnimationTimerEnd_`: removes the OPENING and CLOSING classes. -/
def handleAnimationTimerEnd_ : List Effect :=
  [Effect.removeClass cssClasses.OPENING, Effect.removeClass cssClasses.CLOSING]

/-- The adapter calls performed by the callback of each scheduled timer:
the open timer runs `handleAnimationTimerEnd_`, `trapFocus`, `notifyOpened`;
the close timer runs `handleAnimationTimerEnd_`, `notifyClosed(action)`. -/
def runTimerCb : TimerCb → List Effect
  | TimerCb.openEnd => handleAnimationTimerEnd_ ++ [Effect.trapFocus, Effect.notifyOpened]
  | TimerCb.closeEnd action => handleAnimationTimerEnd_ ++ [Effect.notifyClosed action]

/-- `layout()`: defers all work to the next animation frame
(`requestAnimationFrame`); no adapter call happens synchronously. -/
def layout (s : Foundation) : Foundation × List Effect :=
  ({ s with frames := s.frames ++ [FrameCb.layoutFrame] }, [])

/-- The adapter's measurement results and click classification, injected at
construction.  `getActionFromEvent` returns `none` for a JS
`undefined`/`null` result and `some tok` for a string result (possibly `""`). -/
structure Adapter where
  areButtonsStacked : Bool
  isContentScrollable : Bool
  getActionFromEvent : Nat → Option String

/-- `detectStackedButtons_`: remove the STACKED class first (to measure the
buttons' natural positions), then re-add it iff `areButtonsStacked()`. -/
def detectStackedButtons_ (ad : Adapter) : List Effect :=
  [Effect.removeClass cssClasses.STACKED] ++
    (if ad.areButtonsStacked then [Effect.addClass cssClasses.STACKED] else [])

/-- `detectScrollableContent_`: remove the SCROLLABLE class first (to measure
the content's natural height), then re-add it iff `isContentScrollable()`. -/
def detectScrollableContent_ (ad : Adapter) : List Effect :=
  [Effect.removeClass cssClasses.SCROLLABLE] ++
    (if ad.isContentScrollable then [Effect.addClass cssClasses.SCROLLABLE] else [])

/-- The animation-frame callback scheduled by `layout()`: runs
`detectStackedButtons_` then `detectScrollableContent_`. -/
def runFrame (ad : Adapter) : FrameCb → List Effect
  | FrameCb.layoutFrame => detectStackedButtons_ ad ++ detectScrollableContent_ ad

/-- `open()` (named `open_dialog` because `open` is a Lean keyword):
sets `isOpen_ := true`; registers the click handler on the dialog surface, the
document keydown handler, and the window resize and orientationchange handlers
(the same `windowResizeHandler_` closure for both); adds OPENING; calls
`computeBoundingRect()` (forced redraw); adds OPEN; adds the body SCROLL_LOCK
class; calls `notifyOpening()`; calls `this.layout()`; clears any pending
timer via `clearTimeout(this.animationTimer_)`; and schedules the
open-animation timer, storing its id in `animationTimer_`. -/
def open_dialog (s : Foundation) : Foundation × List Effect :=
  let s := { s with isOpen_ := true }
  let effs : List Effect :=
    [Effect.registerInteractionHandler "click" Handler.dialogClickHandler,
     Effect.registerDocumentHandler "keydown" Handler.documentKeyDownHandler,
     Effect.registerWindowHandler "resize" Handler.windowResizeHandler,
     Effect.registerWindowHandler "orientationchange" Handler.windowResizeHandler,
     Effect.addClass cssClasses.OPENING,
     Effect.computeBoundingRect,
     Effect.addClass cssClasses.OPEN,
     Effect.addBodyClass cssClasses.SCROLL_LOCK,
     Effect.notifyOpening]
  let p := layout s
  let s := p.1
  let effs := effs ++ p.2
  let s := clearTimeout s s.animationTimer_
  let q := setTimeout s TimerCb.openEnd numbers.DIALOG_ANIMATION_OPEN_TIME_MS
  let s := { q.1 with animationTimer_ := q.2 }
  (s, effs)

/-- `close(action)`: sets `isOpen_ := false`; deregisters the four handlers
registered by `open()` using the same closure references; calls
`releaseFocus()`; adds CLOSING; removes OPEN; removes the body SCROLL_LOCK
class; calls `notifyClosing(action)`; clears any pending timer via
`clearTimeout(this.animationTimer_)`; and schedules the close-animation timer
(whose callback closes over `action`), storing its id in `animationTimer_`.
The JS default `action = undefined` is the argument `none`. -/
def close (s : Foundation) (action : Option String) : Foundation × List Effect :=
  let s := { s with isOpen_ := false }
  let effs : List Effect :=
    [Effect.deregisterInteractionHandler "click" Handler.dialogClickHandler,
     Effect.deregisterDocumentHandler "keydown" Handler.documentKeyDownHandler,
     Effect.deregisterWindowHandler "resize" Handler.windowResizeHandler,
     Effect.deregisterWindowHandler "orientationchange" Handler.windowResizeHandler,
     Effect.releaseFocus,
     Effect.addClass cssClasses.CLOSING,
     Effect.removeClass cssClasses.OPEN,
     Effect.removeBodyClass cssClasses.SCROLL_LOCK,
     Effect.notifyClosing action]
  let s := clearTimeout s s.animationTimer_
  let q := setTimeout s (TimerCb.closeEnd action) numbers.DIALOG_ANIMATION_CLOSE_TIME_MS
  let s := { q.1 with animationTimer_ := q.2 }
  (s, effs)

/-- `isOpen()`: pure query of the `isOpen_` flag; no adapter call. -/
def isOpen (s : Foundation) : Bool :=
  s.isOpen_

/-- `destroy()`: if `isOpen_`, first `close(strings.DESTROY_ACTION)`; then
unconditionally runs `handleAnimationTimerEnd_()` synchronously and
`clearTimeout(this.animationTimer_)`. -/
def destroy (s : Foundation) : Foundation × List Effect :=
  let p := if s.isOpen_ then close s (some strings.DESTROY_ACTION) else (s, [])
  let effs := p.2 ++ handleAnimationTimerEnd_
  let s := clearTimeout p.1 p.1.animationTimer_
  (s, effs)

/-- JS truthiness of the value returned by `getActionFromEvent`:
`undefined`/`null` (`none`) and the empty string are falsy. -/
def jsTruthy : Option String → Bool
  | none => false
  | some a => decide (a ≠ "")

/-- `handleDialogClick_(evt)`: asks the adapter to classify the event
(`getActionFromEvent`); `if (action)` — i.e. if the result is truthy — calls
`close(action)`, otherwise does nothing. -/
def handleDialogClick_ (ad : Adapter) (s : Foundation) (evt : Nat) :
    Foundation × List Effect :=
  let action := ad.getActionFromEvent evt
  if jsTruthy action then close s action else (s, [])

/-- `handleWindowResize_()`: calls `layout()`. -/
def handleWindowResize_ (s : Foundation) : Foundation × List Effect :=
  layout s

/-- A keyboard event as seen by `handleDocumentKeyDown_`: `key` is `none` when
the browser does not supply `evt.key` (so `evt.key === 'Escape'` is false),
`keyCode` is the legacy numeric code. -/
structure KeyEvent where
  key : Option String
  keyCode : Nat
deriving DecidableEq, Repr

/-- `handleDocumentKeyDown_(evt)`: if `evt.key === 'Escape' || evt.keyCode
=== 27`, calls `close(strings.ESCAPE_ACTION)`; otherwise does nothing. -/
def handleDocumentKeyDown_ (s : Foundation) (evt : KeyEvent) :
    Foundation × List Effect :=
  if evt.key = some "Escape" ∨ evt.keyCode = 27 then
    close s (some strings.ESCAPE_ACTION)
  else (s, [])

/-- Host scheduler firing the earliest pending timer: the timer is consumed
(removed from the pending list) and its callback's adapter calls run.  The
callbacks do not touch the foundation's own fields. -/
def fireTimer (s : Foundation) : Foundation × List Effect :=
  match s.timers with
  | [] => (s, [])
  | t :: rest => ({ s with timers := rest }, runTimerCb t.cb)

/-- Host scheduler firing the earliest pending animation frame. -/
def fireFrame (ad : Adapter) (s : Foundation) : Foundation × List Effect :=
  match s.frames with
  | [] => (s, [])
  | f :: rest => ({ s with frames := rest }, runFrame ad f)

/-- Every entry point of the controller, plus the host scheduler's delivery of
a pending timer or animation frame. -/
inductive Op where
  | opOpen
  | opClose (action : Option String)
  | opDestroy
  | opLayout
  | opClick (evt : Nat)
  | opResize
  | opKeyDown (evt : KeyEvent)
  | opFireTimer
  | opFireFrame
deriving DecidableEq, Repr

/-- One step of the whole system. -/
def step (ad : Adapter) (s : Foundation) : Op → Foundation × List Effect
  | Op.opOpen => open_dialog s
  | Op.opClose action => close s action
  | Op.opDestroy => destroy s
  | Op.opLayout => layout s
  | Op.opClick evt => handleDialogClick_ ad s evt
  | Op.opResize => handleWindowResize_ s
  | Op.opKeyDown evt => handleDocumentKeyDown_ s evt
  | Op.opFireTimer => fireTimer s
  | Op.opFireFrame => fireFrame ad s

/-- The states the controller can reach from construction under any
interleaving of entry points and scheduler deliveries. -/
inductive Reachable (ad : Adapter) : Foundation → Prop where
  | init : Reachable ad initial
  | next (s : Foundation) (op : Op) (h : Reachable ad s) : Reachable ad (step ad s op).1

/-- The timer bookkeeping invariant: every pending timer carries the id stored
in `animationTimer_` (so `clearTimeout(this.animationTimer_)` cancels it), at
most one timer is pending, and `animationTimer_` is older than the next fresh
id. -/
def timerInv (s : Foundation) : Prop :=
  (∀ t ∈ s.timers, t.id = s.animationTimer_) ∧
  s.timers.length ≤ 1 ∧
  s.animationTimer_ < s.nextTimerId

/-! #### Normal forms of the transition functions -/

lemma open_dialog_eq (s : Foundation) :
    open_dialog s =
      ({ isOpen_ := true
         animationTimer_ := s.nextTimerId
         nextTimerId := s.nextTimerId + 1
         timers := s.timers.filter (fun t => t.id ≠ s.animationTimer_) ++
           [{ id := s.nextTimerId, delay := numbers.DIALOG_ANIMATION_OPEN_TIME_MS,
              cb := TimerCb.openEnd }]
         frames := s.frames ++ [FrameCb.layoutFrame] },
       [Effect.registerInteractionHandler "click" Handler.dialogClickHandler,
        Effect.registerDocumentHandler "keydown" Handler.documentKeyDownHandler,
        Effect.registerWindowHandler "resize" Handler.windowResizeHandler,
        Effect.registerWindowHandler "orientationchange" Handler.windowResizeHandler,
        Effect.addClass cssClasses.OPENING,
        Effect.computeBoundingRect,
        Effect.addClass cssClasses.OPEN,
        Effect.addBodyClass cssClasses.SCROLL_LOCK,
        Effect.notifyOpening]) :=
  rfl

lemma close_eq (s : Foundation) (action : Option String) :
    close s action =
      ({ isOpen_ := false
         animationTimer_ := s.nextTimerId
         nextTimerId := s.nextTimerId + 1
         timers := s.timers.filter (fun t => t.id ≠ s.animationTimer_) ++
           [{ id := s.nextTimerId, delay := numbers.DIALOG_ANIMATION_CLOSE_TIME_MS,
              cb := TimerCb.closeEnd action }]
         frames := s.frames },
       [Effect.deregisterInteractionHandler "click" Handler.dialogClickHandler,
        Effect.deregisterDocumentHandler "keydown" Handler.documentKeyDownHandler,
        Effect.deregisterWindowHandler "resize" Handler.windowResizeHandler,
        Effect.deregisterWindowHandler "orientationchange" Handler.windowResizeHandler,
        Effect.releaseFocus,
        Effect.addClass cssClasses.CLOSING,
        Effect.removeClass cssClasses.OPEN,
        Effect.removeBodyClass cssClasses.SCROLL_LOCK,
        Effect.notifyClosing action]) :=
  rfl

/-! #### The timer invariant holds in every reachable state -/

lemma filter_own_eq_nil (l : List PendingTimer) (n : Nat)
    (h : ∀ t ∈ l, t.id = n) : l.filter (fun t => t.id ≠ n) = [] := by
  refine List.filter_eq_nil_iff.mpr ?_
  intro t ht
  simpa using h t ht

lemma open_dialog_timers (s : Foundation) (h : timerInv s) :
    (open_dialog s).1.timers =
      [{ id := s.nextTimerId, delay := numbers.DIALOG_ANIMATION_OPEN_TIME_MS,
         cb := TimerCb.openEnd }] := by
  have h0 := filter_own_eq_nil s.timers s.animationTimer_ h.1
  rw [open_dialog_eq]
  show s.timers.filter (fun t => t.id ≠ s.animationTimer_) ++ _ = _
  rw [h0, List.nil_append]

lemma close_timers (s : Foundation) (action : Option String) (h : timerInv s) :
    (close s action).1.timers =
      [{ id := s.nextTimerId, delay := numbers.DIALOG_ANIMATION_CLOSE_TIME_MS,
         cb := TimerCb.closeEnd action }] := by
  have h0 := filter_own_eq_nil s.timers s.animationTimer_ h.1
  rw [close_eq]
  show s.timers.filter (fun t => t.id ≠ s.animationTimer_) ++ _ = _
  rw [h0, List.nil_append]

lemma timerInv_open (s : Foundation) (h : timerInv s) :
    timerInv (open_dialog s).1 := by
  have ht := open_dialog_timers s h
  refine ⟨?_, ?_, ?_⟩
  · intro t hmem
    rw [ht] at hmem
    simp only [List.mem_singleton] at hmem
    subst hmem
    rw [open_dialog_eq]
  · rw [ht]
    simp
  · rw [open_dialog_eq]
    exact Nat.lt_succ_self _

lemma timerInv_close (s : Foundation) (action : Option String) (h : timerInv s) :
    timerInv (close s action).1 := by
  have ht := close_timers s action h
  refine ⟨?_, ?_, ?_⟩
  · intro t hmem
    rw [ht] at hmem
    simp only [List.mem_singleton] at hmem
    subst hmem
    rw [close_eq]
  · rw [ht]
    simp
  · rw [close_eq]
    exact Nat.lt_succ_self _

lemma clearTimeout_own (s : Foundation) (h : ∀ t ∈ s.timers, t.id = s.animationTimer_) :
    (clearTimeout s s.animationTimer_).timers = [] := by
  have h0 := filter_own_eq_nil s.timers s.animationTimer_ h
  show s.timers.filter (fun t => t.id ≠ s.animationTimer_) = []
  exact h0

lemma destroy_timers (s : Foundation) (h : timerInv s) :
    (destroy s).1.timers = [] := by
  by_cases hop : s.isOpen_
  · have hc := timerInv_close s (some strings.DESTROY_ACTION) h
    simp only [destroy, hop, if_true]
    exact clearTimeout_own _ hc.1
  · simp only [destroy, hop, if_false]
    exact clearTimeout_own _ h.1

lemma timerInv_destroy (s : Foundation) (h : timerInv s) :
    timerInv (destroy s).1 := by
  have ht := destroy_timers s h
  refine ⟨?_, ?_, ?_⟩
  · intro t hmem
    rw [ht] at hmem
    exact absurd hmem (List.not_mem_nil t)
  · rw [ht]
    exact Nat.zero_le 1
  · by_cases hop : s.isOpen_
    · have hc := timerInv_close s (some strings.DESTROY_ACTION) h
      simp only [destroy, hop, if_true, clearTimeout]
      exact hc.2.2
    · simp only [destroy, hop, if_false, clearTimeout]
      exact h.2.2

lemma timerInv_layout (s : Foundation) (h : timerInv s) :
    timerInv (layout s).1 := by
  exact ⟨h.1, h.2.1, h.2.2⟩

lemma timerInv_fireTimer (s : Foundation) (h : timerInv s) :
    timerInv (fireTimer s).1 := by
  obtain ⟨h1, h2, h3⟩ := h
  cases hl : s.timers with
  | nil => simpa [fireTimer, hl] using ⟨h1, h2, h3⟩
  | cons t rest =>
    have hrest : rest = [] := by
      rw [hl] at h2
      simp only [List.length_cons] at h2
      exact List.eq_nil_of_length_eq_zero (Nat.le_zero.mp (Nat.le_of_succ_le_succ h2))
    subst hrest
    refine ⟨?_, ?_, ?_⟩
    · intro u hmem
      simp only [fireTimer, hl] at hmem
      exact absurd hmem (List.not_mem_nil u)
    · simp [fireTimer, hl]
    · simpa [fireTimer, hl] using h3

lemma timerInv_fireFrame (ad : Adapter) (s : Foundation) (h : timerInv s) :
    timerInv (fireFrame ad s).1 := by
  obtain ⟨h1, h2, h3⟩ := h
  cases hl : s.frames with
  | nil => simpa [fireFrame, hl] using ⟨h1, h2, h3⟩
  | cons f rest => exact ⟨by simpa [fireFrame, hl] using h1, by simpa [fireFrame, hl] using h2,
      by simpa [fireFrame, hl] using h3⟩

lemma timerInv_step (ad : Adapter) (s : Foundation) (op : Op) (h : timerInv s) :
    timerInv (step ad s op).1 := by
  cases op with
  | opOpen => exact timerInv_open s h
  | opClose action => exact timerInv_close s action h
  | opDestroy => exact timerInv_destroy s h
  | opLayout => exact timerInv_layout s h
  | opClick evt =>
    simp only [step, handleDialogClick_]
    by_cases hact : jsTruthy (ad.getActionFromEvent evt)
    · simpa [hact] using timerInv_close s (ad.getActionFromEvent evt) h
    · simpa [hact] using h
  | opResize => exact timerInv_layout s h
  | opKeyDown evt =>
    simp only [step, handleDocumentKeyDown_]
    by_cases hkey : evt.key = some "Escape" ∨ evt.keyCode = 27
    · simpa [hkey] using timerInv_close s (some strings.ESCAPE_ACTION) h
    · simpa [hkey] using h
  | opFireTimer => exact timerInv_fireTimer s h
  | opFireFrame => exact timerInv_fireFrame ad s h

lemma timerInv_initial : timerInv initial := by
  refine ⟨?_, ?_, ?_⟩
  · intro t hmem
    exact absurd hmem (List.not_mem_nil t)
  · exact Nat.zero_le 1
  · exact Nat.zero_lt_one

theorem timerInv_of_reachable (ad : Adapter) (s : Foundation)
    (h : Reachable ad s) : timerInv s := by
  induction h with
  | init => exact timerInv_initial
  | next s op h ih => exact timerInv_step ad s op ih

/-! #### Firing helpers and the DOM class-list mirror -/

lemma fireTimer_nil (s : Foundation) (h : s.timers = []) : fireTimer s = (s, []) := by
  simp [fireTimer, h]

lemma fireTimer_cons (s : Foundation) (t : PendingTimer) (rest : List PendingTimer)
    (h : s.timers = t :: rest) :
    fireTimer s = ({ s with timers := rest }, runTimerCb t.cb) := by
  simp [fireTimer, h]

/-- The dialog root's class list as mutated by the `addClass` / `removeClass`
adapter calls of a trace (DOM `classList` semantics: `add` is idempotent,
`remove` deletes the class; other effects do not touch the class list). -/
def applyEffectClasses (cls : List String) : Effect → List String
  | Effect.addClass c => if c ∈ cls then cls else cls ++ [c]
  | Effect.removeClass c => cls.filter (fun x => x ≠ c)
  | _ => cls

def applyClasses (effs : List Effect) (cls : List String) : List String :=
  effs.foldl applyEffectClasses cls

@[simp]
lemma applyClasses_nil (cls : List String) : applyClasses [] cls = cls :=
  rfl

@[simp]
lemma applyClasses_cons (e : Effect) (effs : List Effect) (cls : List String) :
    applyClasses (e :: effs) cls = applyClasses effs (applyEffectClasses cls e) :=
  rfl

@[simp]
lemma mem_applyEffect_addClass (cls : List String) (c d : String) :
    d ∈ applyEffectClasses cls (Effect.addClass c) ↔ d = c ∨ d ∈ cls := by
  by_cases h : c ∈ cls
  · simp only [applyEffectClasses, if_pos h]
    constructor
    · intro hd
      exact Or.inr hd
    · intro hd
      cases hd with
      | inl hd => exact hd ▸ h
      | inr hd => exact hd
  · simp [applyEffectClasses, if_neg h, List.mem_append, or_comm]

@[simp]
lemma mem_applyEffect_removeClass (cls : List String) (c d : String) :
    d ∈ applyEffectClasses cls (Effect.removeClass c) ↔ d ∈ cls ∧ d ≠ c := by
  simp [applyEffectClasses, List.mem_filter]

lemma stacked_ne_scrollable : cssClasses.STACKED ≠ cssClasses.SCROLLABLE := by
  decide

/-- A trivial adapter: nothing stacked or scrollable, clicks never classify to
an action. -/
def ad0 : Adapter :=
  { areButtonsStacked := false
    isContentScrollable := false
    getActionFromEvent := fun _ => none }

/-- The stub of testable property 7: buttons stacked, content not scrollable. -/
def stubAdapter : Adapter :=
  { areButtonsStacked := true
    isContentScrollable := false
    getActionFromEvent := fun _ => none }

/-- An adapter whose click classification returns the present-but-falsy empty
string. -/
def adEmptyAction : Adapter :=
  { areButtonsStacked := false
    isContentScrollable := false
    getActionFromEvent := fun _ => some "" }

/-- An adapter whose click classification returns the token "accept". -/
def adAccept : Adapter :=
  { areButtonsStacked := false
    isContentScrollable := false
    getActionFromEvent := fun _ => some "accept" }

/-! #### The claims -/

/-- Claim C1: every call to `open()` performs exactly, in order: set `isOpen_`
to true; register the click handler on the dialog surface; register the
document keydown handler; register the window resize and orientation-change
handlers (both the `windowResizeHandler_` closure); add the OPENING marker;
call `computeBoundingRect`; add the OPEN marker; add the body scroll-lock
marker; call `notifyOpening`; invoke `layout()` (which only defers a frame);
cancel any pending timer (the one whose id is `animationTimer_`); and schedule
a new timer for the open-animation duration whose callback removes the OPENING
and CLOSING markers, then calls `trapFocus`, then `notifyOpened`. -/
theorem claim_C1 (s : Foundation) :
    (open_dialog s).2 =
      [Effect.registerInteractionHandler "click" Handler.dialogClickHandler,
       Effect.registerDocumentHandler "keydown" Handler.documentKeyDownHandler,
       Effect.registerWindowHandler "resize" Handler.windowResizeHandler,
       Effect.registerWindowHandler "orientationchange" Handler.windowResizeHandler,
       Effect.addClass cssClasses.OPENING,
       Effect.computeBoundingRect,
       Effect.addClass cssClasses.OPEN,
       Effect.addBodyClass cssClasses.SCROLL_LOCK,
       Effect.notifyOpening] ∧
    (open_dialog s).1.isOpen_ = true ∧
    (open_dialog s).1.frames = s.frames ++ [FrameCb.layoutFrame] ∧
    (open_dialog s).1.timers =
      s.timers.filter (fun t => t.id ≠ s.animationTimer_) ++
        [{ id := s.nextTimerId, delay := numbers.DIALOG_ANIMATION_OPEN_TIME_MS,
           cb := TimerCb.openEnd }] ∧
    (open_dialog s).1.animationTimer_ = s.nextTimerId ∧
    runTimerCb TimerCb.openEnd =
      [Effect.removeClass cssClasses.OPENING, Effect.removeClass cssClasses.CLOSING,
       Effect.trapFocus, Effect.notifyOpened] := by
  rw [open_dialog_eq]
  exact ⟨rfl, rfl, rfl, rfl, rfl, rfl⟩

/-- Claim C2: every call to `close(action)` performs exactly, in order: set
`isOpen_` to false; deregister the four handlers registered by `open()`
passing the identical handler closures created once in the constructor
(`dialogClickHandler_`, `documentKeyDownHandler_`, `windowResizeHandler_`
twice); call `releaseFocus`; add the CLOSING marker; remove the OPEN marker;
remove the body scroll-lock marker; call `notifyClosing(action)`; cancel any
pending timer; and schedule a new timer for the close-animation duration whose
callback removes the OPENING/CLOSING markers and calls `notifyClosed(action)`
— the (possibly absent) `action` is threaded unmodified into both
notifications. -/
theorem claim_C2 (s : Foundation) (action : Option String) :
    (close s action).2 =
      [Effect.deregisterInteractionHandler "click" Handler.dialogClickHandler,
       Effect.deregisterDocumentHandler "keydown" Handler.documentKeyDownHandler,
       Effect.deregisterWindowHandler "resize" Handler.windowResizeHandler,
       Effect.deregisterWindowHandler "orientationchange" Handler.windowResizeHandler,
       Effect.releaseFocus,
       Effect.addClass cssClasses.CLOSING,
       Effect.removeClass cssClasses.OPEN,
       Effect.removeBodyClass cssClasses.SCROLL_LOCK,
       Effect.notifyClosing action] ∧
    (close s action).1.isOpen_ = false ∧
    (close s action).1.timers =
      s.timers.filter (fun t => t.id ≠ s.animationTimer_) ++
        [{ id := s.nextTimerId, delay := numbers.DIALOG_ANIMATION_CLOSE_TIME_MS,
           cb := TimerCb.closeEnd action }] ∧
    (close s action).1.animationTimer_ = s.nextTimerId ∧
    runTimerCb (TimerCb.closeEnd action) =
      [Effect.removeClass cssClasses.OPENING, Effect.removeClass cssClasses.CLOSING,
       Effect.notifyClosed action] := by
  rw [close_eq]
  exact ⟨rfl, rfl, rfl, rfl, rfl⟩

/-- Claim C6: `isOpen()` is a pure query of the `isOpen_` flag; immediately
after `open()` returns it is true — while the open-animation timer is still
pending — and immediately after `close()` returns it is false, also while the
close timer is still pending; the flag is not changed by timer delivery. -/
theorem claim_C6 (s u : Foundation) (action : Option String) :
    isOpen u = u.isOpen_ ∧
    isOpen (open_dialog s).1 = true ∧
    (open_dialog s).1.timers ≠ [] ∧
    isOpen (close s action).1 = false ∧
    (close s action).1.timers ≠ [] ∧
    isOpen (fireTimer u).1 = isOpen u := by
  refine ⟨rfl, by rw [open_dialog_eq]; rfl, ?_, by rw [close_eq]; rfl, ?_, ?_⟩
  · rw [open_dialog_eq]
    simp
  · rw [close_eq]
    simp
  · cases hl : u.timers with
    | nil => rw [fireTimer_nil u hl]
    | cons t rest =>
      rw [fireTimer_cons u t rest hl]
      rfl

/-- Claim C7: for a document keydown delivered while the dialog is open, the
handler calls `close` with the reserved escape action token exactly when
`evt.key` is `"Escape"` or `evt.keyCode` is 27; for every other key it does
nothing (state unchanged, no adapter call). -/
theorem claim_C7 (s : Foundation) (evt : KeyEvent) (_hopen : s.isOpen_ = true) :
    ((evt.key = some "Escape" ∨ evt.keyCode = 27) →
      handleDocumentKeyDown_ s evt = close s (some strings.ESCAPE_ACTION)) ∧
    (¬(evt.key = some "Escape" ∨ evt.keyCode = 27) →
      handleDocumentKeyDown_ s evt = (s, [])) := by
  constructor <;> intro hk <;> simp [handleDocumentKeyDown_, hk]

/-- Witness for C7: in the state reached by `open()` from construction (which
is open), the Escape key closes with the escape token and the key "a"
(keyCode 65) does nothing. -/
theorem claim_C7_witness :
    (handleDocumentKeyDown_ (open_dialog initial).1 { key := some "Escape", keyCode := 0 } =
      close (open_dialog initial).1 (some strings.ESCAPE_ACTION)) ∧
    (handleDocumentKeyDown_ (open_dialog initial).1 { key := some "a", keyCode := 65 } =
      ((open_dialog initial).1, [])) := by
  constructor
  · exact (claim_C7 (open_dialog initial).1 { key := some "Escape", keyCode := 0 } rfl).1
      (Or.inl rfl)
  · exact (claim_C7 (open_dialog initial).1 { key := some "a", keyCode := 65 } rfl).2
      (by decide)

/-- Claim C3: in every reachable state at most one animation timer is pending;
`open()` and `close()` each cancel the prior pending timer before scheduling
their own (afterwards exactly the newly scheduled timer is pending, so no
stale callback of a superseded transition can ever fire); and a transition's
completion is delivered at most once: the timer is consumed when it fires, so
a second delivery produces no effects. -/
theorem claim_C3 (ad : Adapter) (s : Foundation) (h : Reachable ad s) :
    s.timers.length ≤ 1 ∧
    (open_dialog s).1.timers =
      [{ id := s.nextTimerId, delay := numbers.DIALOG_ANIMATION_OPEN_TIME_MS,
         cb := TimerCb.openEnd }] ∧
    (∀ action, (close s action).1.timers =
      [{ id := s.nextTimerId, delay := numbers.DIALOG_ANIMATION_CLOSE_TIME_MS,
         cb := TimerCb.closeEnd action }]) ∧
    (fireTimer (fireTimer s).1).2 = [] := by
  have hinv := timerInv_of_reachable ad s h
  refine ⟨hinv.2.1, open_dialog_timers s hinv, fun action => close_timers s action hinv, ?_⟩
  cases hl : s.timers with
  | nil =>
    rw [fireTimer_nil s hl, fireTimer_nil s hl]
  | cons t rest =>
    have hrest : rest = [] := by
      have h2 := hinv.2.1
      rw [hl] at h2
      simp only [List.length_cons] at h2
      exact List.eq_nil_of_length_eq_zero (Nat.le_zero.mp (Nat.le_of_succ_le_succ h2))
    subst hrest
    rw [fireTimer_cons s t [] hl]
    rw [fireTimer_nil _ rfl]

/-- Witness for C3: the claim instantiated at the trivial adapter and the
freshly constructed state. -/
theorem claim_C3_witness :
    initial.timers.length ≤ 1 ∧
    (open_dialog initial).1.timers =
      [{ id := initial.nextTimerId, delay := numbers.DIALOG_ANIMATION_OPEN_TIME_MS,
         cb := TimerCb.openEnd }] ∧
    (∀ action, (close initial action).1.timers =
      [{ id := initial.nextTimerId, delay := numbers.DIALOG_ANIMATION_CLOSE_TIME_MS,
         cb := TimerCb.closeEnd action }]) ∧
    (fireTimer (fireTimer initial).1).2 = [] :=
  claim_C3 ad0 initial Reachable.init

/-- Claim C4: from any reachable state, calling `open()` and then `close(a)`
before the open-animation timer fires leaves exactly one pending timer — the
close-animation one, which is not the open completion callback — so
`notifyOpened` never fires: over the whole run (open, close, and the delivery
of the one pending timer) `notifyOpened` occurs zero times and
`notifyClosed a` exactly once, after the close-animation delay; after that
delivery no timer remains pending. -/
theorem claim_C4 (ad : Adapter) (s : Foundation) (action : Option String)
    (h : Reachable ad s) :
    (close (open_dialog s).1 action).1.timers =
      [{ id := s.nextTimerId + 1, delay := numbers.DIALOG_ANIMATION_CLOSE_TIME_MS,
         cb := TimerCb.closeEnd action }] ∧
    (∀ t ∈ (close (open_dialog s).1 action).1.timers, t.cb ≠ TimerCb.openEnd) ∧
    ((open_dialog s).2 ++ (close (open_dialog s).1 action).2 ++
        (fireTimer (close (open_dialog s).1 action).1).2).count Effect.notifyOpened = 0 ∧
    ((open_dialog s).2 ++ (close (open_dialog s).1 action).2 ++
        (fireTimer (close (open_dialog s).1 action).1).2).count
      (Effect.notifyClosed action) = 1 ∧
    (fireTimer (close (open_dialog s).1 action).1).1.timers = [] := by
  have hinv := timerInv_of_reachable ad s h
  have hinv1 := timerInv_open s hinv
  have ht2 := close_timers (open_dialog s).1 action hinv1
  have hnext : (open_dialog s).1.nextTimerId = s.nextTimerId + 1 := by
    rw [open_dialog_eq]
  rw [hnext] at ht2
  have hfire := fireTimer_cons (close (open_dialog s).1 action).1 _ [] ht2
  have e1 : (open_dialog s).2 =
      [Effect.registerInteractionHandler "click" Handler.dialogClickHandler,
       Effect.registerDocumentHandler "keydown" Handler.documentKeyDownHandler,
       Effect.registerWindowHandler "resize" Handler.windowResizeHandler,
       Effect.registerWindowHandler "orientationchange" Handler.windowResizeHandler,
       Effect.addClass cssClasses.OPENING,
       Effect.computeBoundingRect,
       Effect.addClass cssClasses.OPEN,
       Effect.addBodyClass cssClasses.SCROLL_LOCK,
       Effect.notifyOpening] := by rw [open_dialog_eq]
  have e2 : (close (open_dialog s).1 action).2 =
      [Effect.deregisterInteractionHandler "click" Handler.dialogClickHandler,
       Effect.deregisterDocumentHandler "keydown" Handler.documentKeyDownHandler,
       Effect.deregisterWindowHandler "resize" Handler.windowResizeHandler,
       Effect.deregisterWindowHandler "orientationchange" Handler.windowResizeHandler,
       Effect.releaseFocus,
       Effect.addClass cssClasses.CLOSING,
       Effect.removeClass cssClasses.OPEN,
       Effect.removeBodyClass cssClasses.SCROLL_LOCK,
       Effect.notifyClosing action] := by rw [close_eq]
  have e3 : (fireTimer (close (open_dialog s).1 action).1).2 =
      runTimerCb (TimerCb.closeEnd action) := by
    rw [hfire]
  refine ⟨ht2, ?_, ?_, ?_, ?_⟩
  · intro t hmem
    rw [ht2] at hmem
    simp only [List.mem_singleton] at hmem
    subst hmem
    simp
  · rw [e1, e2, e3]
    simp [runTimerCb, handleAnimationTimerEnd_, List.count_cons, List.count_append]
  · rw [e1, e2, e3]
    simp [runTimerCb, handleAnimationTimerEnd_, List.count_cons, List.count_append]
  · rw [hfire]

/-- Witness for C4: the claim instantiated at the trivial adapter, the freshly
constructed state, and an absent action. -/
theorem claim_C4_witness :
    (close (open_dialog initial).1 none).1.timers =
      [{ id := initial.nextTimerId + 1, delay := numbers.DIALOG_ANIMATION_CLOSE_TIME_MS,
         cb := TimerCb.closeEnd none }] ∧
    (∀ t ∈ (close (open_dialog initial).1 none).1.timers, t.cb ≠ TimerCb.openEnd) ∧
    ((open_dialog initial).2 ++ (close (open_dialog initial).1 none).2 ++
        (fireTimer (close (open_dialog initial).1 none).1).2).count Effect.notifyOpened = 0 ∧
    ((open_dialog initial).2 ++ (close (open_dialog initial).1 none).2 ++
        (fireTimer (close (open_dialog initial).1 none).1).2).count
      (Effect.notifyClosed none) = 1 ∧
    (fireTimer (close (open_dialog initial).1 none).1).1.timers = [] :=
  claim_C4 ad0 initial none Reachable.init

/-- Claim C5: `destroy()` from a reachable state first performs the full
`close()` effect sequence with the reserved destroy token if the dialog is
open; then, unconditionally and synchronously, it removes the OPENING and
CLOSING markers and cancels any pending timer, so after `destroy()` no timer
is pending and a subsequent timer delivery produces no effects (in particular
no `notifyOpened`/`notifyClosed`). -/
theorem claim_C5 (ad : Adapter) (s : Foundation) (h : Reachable ad s) :
    (destroy s).1.timers = [] ∧
    (s.isOpen_ = true →
      (destroy s).2 = (close s (some strings.DESTROY_ACTION)).2 ++
        [Effect.removeClass cssClasses.OPENING, Effect.removeClass cssClasses.CLOSING]) ∧
    (s.isOpen_ = false →
      (destroy s).2 =
        [Effect.removeClass cssClasses.OPENING, Effect.removeClass cssClasses.CLOSING]) ∧
    (fireTimer (destroy s).1).2 = [] := by
  have hinv := timerInv_of_reachable ad s h
  have ht := destroy_timers s hinv
  refine ⟨ht, ?_, ?_, ?_⟩
  · intro hop
    simp [destroy, hop, handleAnimationTimerEnd_]
  · intro hop
    simp [destroy, hop, handleAnimationTimerEnd_]
  · rw [fireTimer_nil _ ht]

/-- Witness for C5: the claim instantiated at the trivial adapter and the
reachable open state produced by `open()` from construction, so the forced
close with the destroy token is exercised. -/
theorem claim_C5_witness :
    (destroy (open_dialog initial).1).1.timers = [] ∧
    ((open_dialog initial).1.isOpen_ = true →
      (destroy (open_dialog initial).1).2 =
        (close (open_dialog initial).1 (some strings.DESTROY_ACTION)).2 ++
          [Effect.removeClass cssClasses.OPENING, Effect.removeClass cssClasses.CLOSING]) ∧
    ((open_dialog initial).1.isOpen_ = false →
      (destroy (open_dialog initial).1).2 =
        [Effect.removeClass cssClasses.OPENING, Effect.removeClass cssClasses.CLOSING]) ∧
    (fireTimer (destroy (open_dialog initial).1).1).2 = [] :=
  claim_C5 ad0 (open_dialog initial).1 (Reachable.next initial Op.opOpen Reachable.init)

/-- Counterexample to claim C8 as stated: with an adapter whose
`getActionFromEvent` returns the present (`isSome`) but falsy token `""`, a
dialog-surface click does not call `close` — the handler produces no effect
and leaves the state unchanged, although `close` always emits a nonempty
trace.  The claim's "if a token is present ... calls close with that token"
is therefore false for the present token `""`. -/
theorem claim_C8_counterexample :
    (adEmptyAction.getActionFromEvent 0).isSome = true ∧
    handleDialogClick_ adEmptyAction (open_dialog initial).1 0 =
      ((open_dialog initial).1, []) ∧
    (close (open_dialog initial).1 (some "")).2 ≠ [] := by
  refine ⟨rfl, rfl, ?_⟩
  rw [close_eq]
  simp

/-- Claim C8 (amended): the click handler asks the adapter to classify the
event; if the token is absent — or present but empty, hence falsy — the
dialog is not closed and the state is unchanged; if a present non-empty token
(e.g. "accept") is returned, the handler calls `close` with exactly that
token, so `notifyClosing` receives it and the scheduled close-animation
callback delivers `notifyClosed` with it. -/
theorem claim_C8 (ad : Adapter) (s : Foundation) (evt : Nat) :
    (ad.getActionFromEvent evt = none → handleDialogClick_ ad s evt = (s, [])) ∧
    (ad.getActionFromEvent evt = some "" → handleDialogClick_ ad s evt = (s, [])) ∧
    (∀ tok, ad.getActionFromEvent evt = some tok → tok ≠ "" →
      handleDialogClick_ ad s evt = close s (some tok) ∧
      Effect.notifyClosing (some tok) ∈ (close s (some tok)).2 ∧
      runTimerCb (TimerCb.closeEnd (some tok)) =
        [Effect.removeClass cssClasses.OPENING, Effect.removeClass cssClasses.CLOSING,
         Effect.notifyClosed (some tok)]) := by
  refine ⟨?_, ?_, ?_⟩
  · intro hnone
    simp [handleDialogClick_, hnone, jsTruthy]
  · intro hempty
    simp [handleDialogClick_, hempty, jsTruthy]
  · intro tok htok hne
    refine ⟨?_, ?_, rfl⟩
    · simp [handleDialogClick_, htok, jsTruthy, hne]
    · rw [close_eq]
      simp

/-- Witness for the amended C8: with an adapter classifying clicks as
"accept", a click on the open dialog calls `close` with "accept",
`notifyClosing` receives "accept", and the close-animation callback delivers
`notifyClosed` with "accept". -/
theorem claim_C8_witness :
    handleDialogClick_ adAccept (open_dialog initial).1 0 =
      close (open_dialog initial).1 (some "accept") ∧
    Effect.notifyClosing (some "accept") ∈ (close (open_dialog initial).1 (some "accept")).2 ∧
    runTimerCb (TimerCb.closeEnd (some "accept")) =
      [Effect.removeClass cssClasses.OPENING, Effect.removeClass cssClasses.CLOSING,
       Effect.notifyClosed (some "accept")] :=
  (claim_C8 adAccept (open_dialog initial).1 0).2.2 "accept" rfl (by decide)

/-- Claim C9: `layout()` performs no synchronous adapter call and defers its
work to the next animation frame; the deferred callback performs two
independent remove-measure-conditionally-re-add sequences, so afterwards the
STACKED marker is on the root iff `areButtonsStacked()` and the SCROLLABLE
marker iff `isContentScrollable()`, whatever classes were present before; in
particular with the stub returning `areButtonsStacked() = true`,
`isContentScrollable() = false`, only the stacked marker is present. -/
theorem claim_C9 (ad : Adapter) (s : Foundation) (cls : List String) :
    (layout s).2 = [] ∧
    (layout s).1.frames = s.frames ++ [FrameCb.layoutFrame] ∧
    (layout s).1.isOpen_ = s.isOpen_ ∧
    (layout s).1.timers = s.timers ∧
    (cssClasses.STACKED ∈ applyClasses (runFrame ad FrameCb.layoutFrame) cls ↔
      ad.areButtonsStacked = true) ∧
    (cssClasses.SCROLLABLE ∈ applyClasses (runFrame ad FrameCb.layoutFrame) cls ↔
      ad.isContentScrollable = true) ∧
    cssClasses.STACKED ∈ applyClasses (runFrame stubAdapter FrameCb.layoutFrame) cls ∧
    cssClasses.SCROLLABLE ∉ applyClasses (runFrame stubAdapter FrameCb.layoutFrame) cls := by
  have hne := stacked_ne_scrollable
  refine ⟨rfl, rfl, rfl, rfl, ?_, ?_, ?_, ?_⟩
  · cases hb : ad.areButtonsStacked <;> cases hc : ad.isContentScrollable <;>
      simp [runFrame, detectStackedButtons_, detectScrollableContent_, hb, hc, hne]
  · cases hb : ad.areButtonsStacked <;> cases hc : ad.isContentScrollable <;>
      simp [runFrame, detectStackedButtons_, detectScrollableContent_, hb, hc, hne]
  · simp [runFrame, detectStackedButtons_, detectScrollableContent_, stubAdapter, hne]
  · simp [runFrame, detectStackedButtons_, detectScrollableContent_, stubAdapter, hne]

/-- Claim C10 (implicit behavior): a click whose adapter classification is the
present but falsy token `""` is treated exactly like an absent token — the
handler does not call `close`, produces no effect, and behaves identically to
a handler run under an adapter returning no token — because the source tests
the token with `if (action)` (truthiness), not presence. -/
theorem claim_C10 (ad adNone : Adapter) (s : Foundation) (evt : Nat)
    (h1 : ad.getActionFromEvent evt = some "")
    (h2 : adNone.getActionFromEvent evt = none) :
    handleDialogClick_ ad s evt = (s, []) ∧
    handleDialogClick_ ad s evt = handleDialogClick_ adNone s evt := by
  constructor <;> simp [handleDialogClick_, h1, h2, jsTruthy]

/-- Witness for C10: concrete adapters returning `some ""` and `none` on the
open dialog. -/
theorem claim_C10_witness :
    handleDialogClick_ adEmptyAction (open_dialog initial).1 0 =
      ((open_dialog initial).1, []) ∧
    handleDialogClick_ adEmptyAction (open_dialog initial).1 0 =
      handleDialogClick_ ad0 (open_dialog initial).1 0 :=
  claim_C10 adEmptyAction ad0 (open_dialog initial).1 0 rfl rfl

end MDCDialog
